import Mathlib

/-!
Verification of the chord-script markup parsing engine
(`src/parser/mod.rs` together with the data model in `src/model/mod.rs`).

The Rust parser is written with the chumsky combinator library; the
embedding below models the relevant chumsky combinators over `List Char`:
a parser either succeeds with a value and the remaining input, or fails.
Alternation (`or`) backtracks and merges the two failures into one
(chumsky keeps a single preferred error, the one furthest into the
input); `repeated` stops, rewinding the failed attempt; `or_not` never
fails; `padded` skips whitespace on both sides of the inner parser.
A failure is recorded as the length of the remaining input at the
failure point (smaller remainder = further into the input), which is
what the furthest-failure merge compares.
-/

namespace ChordScript

/-- Text styling options for a span of text (`TextStyle` in `src/model/mod.rs`). -/
inductive TextStyle
  | Normal
  | Bold
  | Italic
  | BoldItalic
deriving DecidableEq

/-- A styled span of text (`TextSpan` in `src/model/mod.rs`). -/
structure TextSpan where
  text : String
  style : TextStyle
deriving DecidableEq

/-- Line level in the hierarchy (`LineLevel` in `src/model/mod.rs`). -/
inductive LineLevel
  | Header1
  | Header2
  | Header3
  | Text
deriving DecidableEq

/-- A line in a chart with three-column layout (`Line` in `src/model/mod.rs`). -/
structure Line where
  level : LineLevel
  left : List TextSpan
  center : List TextSpan
  right : List TextSpan
deriving DecidableEq

/-- A complete music chart (`Chart` in `src/model/mod.rs`). -/
structure Chart where
  lines : List Line
deriving DecidableEq

/-- A chumsky-style parser over character lists.  On failure it returns the
length of the remaining input at the point of failure. -/
def P (α : Type) : Type := List Char → Except Nat (α × List Char)

/-- chumsky `map`. -/
def pmap {α β : Type} (f : α → β) (p : P α) : P β := fun s =>
  match p s with
  | .ok (a, s') => .ok (f a, s')
  | .error e => .error e

/-- chumsky `then`: sequence two parsers, pairing their outputs. -/
def pthen {α β : Type} (p : P α) (q : P β) : P (α × β) := fun s =>
  match p s with
  | .error e => .error e
  | .ok (a, s') =>
    match q s' with
    | .error e => .error e
    | .ok (b, s'') => .ok ((a, b), s'')

/-- chumsky `then_ignore`. -/
def thenIgnore {α β : Type} (p : P α) (q : P β) : P α :=
  pmap Prod.fst (pthen p q)

/-- chumsky `ignore_then`. -/
def ignoreThen {α β : Type} (p : P α) (q : P β) : P β :=
  pmap Prod.snd (pthen p q)

/-- chumsky `to`: run the parser, replace its output by a constant. -/
def pto {α β : Type} (p : P α) (b : β) : P β :=
  pmap (fun _ => b) p

/-- chumsky `or`: try the left parser; on failure rewind and try the right
one; if both fail, keep the failure furthest into the input (chumsky merges
alternative errors, preferring the one at the greater offset, i.e. the
smaller remaining length). -/
def por {α : Type} (p q : P α) : P α := fun s =>
  match p s with
  | .ok r => .ok r
  | .error e1 =>
    match q s with
    | .ok r => .ok r
    | .error e2 => .error (min e1 e2)

/-- chumsky `or_not`: optional parser, never fails, rewinds on inner failure. -/
def orNot {α : Type} (p : P α) : P (Option α) := fun s =>
  match p s with
  | .ok (a, s') => .ok (some a, s')
  | .error _ => .ok (none, s)

/-- chumsky `just`: match a literal string. -/
def just (lit : String) : P Unit := fun s =>
  if lit.toList.isPrefixOf s then .ok ((), s.drop lit.toList.length)
  else .error s.length

/-- chumsky `none_of`: match any single character not in the given set. -/
def noneOf (bad : List Char) : P Char := fun s =>
  match s with
  | [] => .error 0
  | c :: rest => if bad.contains c then .error (rest.length + 1) else .ok (c, rest)

/-- Fuel-driven loop behind `many`; each successful step recurses on the
rest of the input.  The fuel is set to more than the input length, so for
input-consuming parsers (the only ones `repeated` is applied to here, as
in the Rust source) it never runs out before the parser fails. -/
def manyAux {α : Type} (p : P α) : Nat → List Char → List α × List Char
  | 0, s => ([], s)
  | n + 1, s =>
    match p s with
    | .error _ => ([], s)
    | .ok (a, s') =>
      match manyAux p n s' with
      | (as, s'') => (a :: as, s'')

/-- chumsky `repeated().collect::<Vec<_>>()`: zero or more repetitions,
greedy, rewinding the failed final attempt; never fails. -/
def many {α : Type} (p : P α) : P (List α) := fun s =>
  .ok (manyAux p (s.length + 1) s)

/-- chumsky `repeated().at_least(1)`: one or more repetitions. -/
def many1 {α : Type} (p : P α) : P (List α) := fun s =>
  match p s with
  | .error e => .error e
  | .ok (a, s') =>
    match manyAux p (s'.length + 1) s' with
    | (as, s'') => .ok (a :: as, s'')

/-- Whitespace in the sense of Rust `char::is_whitespace`, restricted to the
ASCII whitespace the grammar uses (chumsky `text::whitespace`). -/
def isWsChar (c : Char) : Bool :=
  c = ' ' || c = '\t' || c = '\n' || c = '\r'

/-- Skip leading whitespace. -/
def skipWs (s : List Char) : List Char :=
  s.dropWhile isWsChar

/-- chumsky `padded`: skip whitespace before and after the inner parser. -/
def padded {α : Type} (p : P α) : P α := fun s =>
  match p (skipWs s) with
  | .error e => .error e
  | .ok (a, s') => .ok (a, skipWs s')

/-- chumsky `end`: succeed only at the end of the input. -/
def endP : P Unit := fun s =>
  match s with
  | [] => .ok ((), [])
  | _ => .error s.length

/-- Rust `str::trim` followed by `to_string`, on the collected body
characters of a span. -/
def rustTrim (cs : List Char) : String :=
  String.mk (((cs.dropWhile isWsChar).reverse.dropWhile isWsChar).reverse)

/-- Characters excluded from the body of a `***`/`**` span
(`none_of("*")` in `styled_text_parser`). -/
def boldBodyExcluded : List Char := ['*']

/-- Characters excluded from the body of a `*` span
(`none_of("*<>\n")` in `styled_text_parser`). -/
def italicBodyExcluded : List Char := ['*', '<', '>', '\n']

/-- Characters excluded from a plain (unstyled) run
(`none_of("<>*\n")` in `styled_text_parser`). -/
def plainExcluded : List Char := ['<', '>', '*', '\n']

/-- `styled_text_parser` from `src/parser/mod.rs`: one styled span,
trying bold-italic, then bold, then italic, then plain, each body one or
more characters from its allowed set, trimmed. -/
def styledTextParser : P TextSpan :=
  let boldItalic :=
    pmap (fun cs => TextSpan.mk (rustTrim cs) TextStyle.BoldItalic)
      (thenIgnore (ignoreThen (just "***") (many1 (noneOf boldBodyExcluded))) (just "***"))
  let bold :=
    pmap (fun cs => TextSpan.mk (rustTrim cs) TextStyle.Bold)
      (thenIgnore (ignoreThen (just "**") (many1 (noneOf boldBodyExcluded))) (just "**"))
  let italic :=
    pmap (fun cs => TextSpan.mk (rustTrim cs) TextStyle.Italic)
      (thenIgnore (ignoreThen (just "*") (many1 (noneOf italicBodyExcluded))) (just "*"))
  let plain :=
    pmap (fun cs => TextSpan.mk (rustTrim cs) TextStyle.Normal)
      (many1 (noneOf plainExcluded))
  por (por (por boldItalic bold) italic) plain

/-- `columns_parser` from `src/parser/mod.rs`: split the remainder of a
line into (left, center, right) span lists, trying the center marker
`<>` first, then the left marker `<`, then the right marker `>`, then
marker-free content (all of it left). -/
def columnsParser : P (List TextSpan × List TextSpan × List TextSpan) :=
  let withCenter :=
    pmap (fun (cr : List TextSpan × Option (List TextSpan)) =>
        (([] : List TextSpan), cr.1, cr.2.getD []))
      (pthen (ignoreThen (just "<>") (many styledTextParser))
        (orNot (ignoreThen (just ">") (many styledTextParser))))
  let withLeft :=
    pmap (fun (lcr : (List TextSpan × Option (List TextSpan)) × Option (List TextSpan)) =>
        (lcr.1.1, (lcr.1.2.getD []), lcr.2.getD []))
      (pthen
        (pthen (ignoreThen (just "<") (many styledTextParser))
          (orNot (ignoreThen (just "<>") (many styledTextParser))))
        (orNot (ignoreThen (just ">") (many styledTextParser))))
  let withRight :=
    pmap (fun r => (([] : List TextSpan), ([] : List TextSpan), r))
      (ignoreThen (just ">") (many styledTextParser))
  let noMarkers :=
    pmap (fun l => (l, ([] : List TextSpan), ([] : List TextSpan)))
      (many styledTextParser)
  por (por (por withCenter withLeft) withRight) noMarkers

/-- `line_parser` from `src/parser/mod.rs`: a padded level marker
(longest first: `===`, `==`, `=`, `-`) followed by the three columns. -/
def lineParser : P Line :=
  let level :=
    por (por (por (pto (just "===") LineLevel.Header1)
                  (pto (just "==") LineLevel.Header2))
             (pto (just "=") LineLevel.Header3))
        (pto (just "-") LineLevel.Text)
  pmap (fun lc : LineLevel × (List TextSpan × List TextSpan × List TextSpan) =>
      Line.mk lc.1 lc.2.1 lc.2.2.1 lc.2.2.2)
    (pthen (padded level) columnsParser)

/-- `chart_parser` from `src/parser/mod.rs`: padded lines, repeated, then
end of input. -/
def chartParser : P (List Line) :=
  thenIgnore (many (padded lineParser)) endP

/-- `parse_chart` from `src/parser/mod.rs`: run the chart parser; on
success wrap the lines in a `Chart`, on failure format the parser error
(chumsky without recovery strategies reports a single merged error, so
the error list has one message). -/
def parseChart (input : String) : Except (List String) Chart :=
  match chartParser input.toList with
  | .ok (lines, _) => .ok (Chart.mk lines)
  | .error e =>
    .error ["Parse error: unexpected input at offset " ++ toString (input.length - e)]

/-- Whether `parse_chart` returned a `Chart` (its `Result` is `Ok`). -/
def isOkB (r : Except (List String) Chart) : Bool :=
  match r with
  | .ok _ => true
  | .error _ => false

/-- The error-message list of a `parse_chart` result (empty on success). -/
def errList (r : Except (List String) Chart) : List String :=
  match r with
  | .ok _ => []
  | .error es => es

/-- The number of lines of a successfully parsed chart (0 on error). -/
def chartLen (r : Except (List String) Chart) : Nat :=
  match r with
  | .ok c => c.lines.length
  | .error _ => 0

deriving instance DecidableEq for Except

/-- C7: level markers are matched longest-first: parsing `"=== text"` yields a
single `Line` with level `Header1` and left column `[span "text"]`; in
particular it is not `Header2` with a residual `"="` as content. -/
theorem c7_level_longest_match :
    parseChart "=== text" =
      Except.ok (Chart.mk
        [Line.mk LineLevel.Header1 [TextSpan.mk "text" TextStyle.Normal] [] []]) := by
  decide

/-- C8: the two-character center marker is recognized before the
one-character left marker: `"=== <Left <>Center >Right"` parses into one
line with left `["Left"]`, center `["Center"]`, right `["Right"]`, all
spans with style `Normal`. -/
theorem c8_column_markers :
    parseChart "=== <Left <>Center >Right" =
      Except.ok (Chart.mk
        [Line.mk LineLevel.Header1
          [TextSpan.mk "Left" TextStyle.Normal]
          [TextSpan.mk "Center" TextStyle.Normal]
          [TextSpan.mk "Right" TextStyle.Normal]]) := by
  decide

/-- C1 counterexample: the input `"- *a\n- *b"` has two lines, each malformed on
its own (each has an unclosed italic marker), yet `parse_chart` on the combined
input reports a single error, not one error per malformed line. -/
theorem c1_cex_single_error :
    isOkB (parseChart "- *a") = false ∧
    isOkB (parseChart "- *b") = false ∧
    isOkB (parseChart "- *a\n- *b") = false ∧
    (errList (parseChart "- *a\n- *b")).length = 1 := by
  decide

/-- C1 amended: `parse_chart` does not collect one error per malformed line;
without recovery strategies the parser stops at the first failure point and the
error list has exactly one entry, as on this two-bad-line input. -/
theorem c1_one_merged_error :
    isOkB (parseChart "- *first\n- *second") = false ∧
    (errList (parseChart "- *first\n- *second")).length = 1 := by
  decide

/-- C2 counterexample: `"= <>Center only"` parses successfully — a bare center
marker with no left marker is accepted, not rejected with a
missing-left-column error. -/
theorem c2_cex_center_without_left_ok :
    isOkB (parseChart "= <>Center only") = true := by
  decide

/-- C2 amended: `"= <>Center only"` yields a one-line `Document` with level
`Header3`, an empty left column, center `["Center only"]`, and an empty right
column; no error is produced. -/
theorem c2_center_without_left :
    parseChart "= <>Center only" =
      Except.ok (Chart.mk
        [Line.mk LineLevel.Header3 []
          [TextSpan.mk "Center only" TextStyle.Normal] []]) := by
  decide

/-- C3 counterexample: `"- ** **"` is not a parse error; it parses into a
`Document` whose single span has empty text after trimming (a `Bold` span
whose body was only whitespace). -/
theorem c3_cex_empty_span :
    parseChart "- ** **" =
      Except.ok (Chart.mk
        [Line.mk LineLevel.Text [TextSpan.mk "" TextStyle.Bold] [] []]) := by
  decide

/-- C3 amended: a styled-marker pair enclosing only whitespace parses
successfully as a span whose trimmed text is empty, so a returned `Document`
may contain empty-text spans (here an `Italic` one from `"- * *"`). -/
theorem c3_whitespace_body_spans :
    parseChart "- * *" =
      Except.ok (Chart.mk
        [Line.mk LineLevel.Text [TextSpan.mk "" TextStyle.Italic] [] []]) := by
  decide

/-- C4 counterexample: the single-newline input does not parse to an empty
`Document`; it is a parse error (the loop of padded lines consumes nothing and
the end-of-input check fails on the remaining whitespace). -/
theorem c4_cex_newline_fails :
    isOkB (parseChart "\n") = false := by
  decide

/-- C4 amended: only the empty input yields an empty `Document`; a nonempty
input consisting solely of whitespace or blank lines is a parse error. -/
theorem c4_empty_vs_whitespace :
    parseChart "" = Except.ok (Chart.mk []) ∧
    isOkB (parseChart " ") = false ∧
    isOkB (parseChart " \n \n") = false := by
  decide

/-- C5 counterexample: `"- **bold\ntext**"` parses successfully — a bold
opening marker closed only on the next line is not a parse error. -/
theorem c5_cex_bold_crosses_newline :
    isOkB (parseChart "- **bold\ntext**") = true := by
  decide

/-- C5 amended: italic markers must close on the same line (the italic body
excludes the newline character), but bold and bold-italic bodies exclude only
`*`, so their closing marker may sit on a later line and the resulting span's
text contains the line break. -/
theorem c5_same_line_only_for_italic :
    parseChart "- **bold\ntext**" =
      Except.ok (Chart.mk
        [Line.mk LineLevel.Text [TextSpan.mk "bold\ntext" TextStyle.Bold] [] []]) ∧
    isOkB (parseChart "- *bold\ntext*") = false := by
  decide

/-- C6 counterexample: `"===\n== B"` does not yield a two-element `Document`;
it yields a single line (the padding after the bare level marker consumes the
line break, and the next line's text is absorbed). -/
theorem c6_cex_marker_only_line_absorbs :
    chartLen (parseChart "===\n== B") = 1 ∧ chartLen (parseChart "===\n== B") ≠ 2 := by
  decide

/-- C6 amended: a line with content produces its own `Line` (`"=== A\n== B"`
gives two lines in input order), but a line consisting only of a level marker
absorbs the following line's text into its left column: `"===\n== B"` yields
one `Header1` line with left `["== B"]`. -/
theorem c6_line_absorption :
    parseChart "===\n== B" =
      Except.ok (Chart.mk
        [Line.mk LineLevel.Header1 [TextSpan.mk "== B" TextStyle.Normal] [] []]) ∧
    parseChart "=== A\n== B" =
      Except.ok (Chart.mk
        [Line.mk LineLevel.Header1 [TextSpan.mk "A" TextStyle.Normal] [] [],
         Line.mk LineLevel.Header2 [TextSpan.mk "B" TextStyle.Normal] [] []]) := by
  decide

/-- C9: each of the three unclosed-style-marker inputs makes `parse_chart`
fail with a non-empty error list and no `Chart` (the `Result` return type
never carries both). -/
theorem c9_unclosed_markers_fail :
    (isOkB (parseChart "=== *Unclosed") = false ∧
      errList (parseChart "=== *Unclosed") ≠ []) ∧
    (isOkB (parseChart "=== **Unclosed") = false ∧
      errList (parseChart "=== **Unclosed") ≠ []) ∧
    (isOkB (parseChart "=== ***Unclosed") = false ∧
      errList (parseChart "=== ***Unclosed") ≠ []) := by
  decide

/-- C10: inside a bold body the column-marker characters are ordinary text:
`"- **a < b**"` parses into one `Text` line whose left column is the single
`Bold` span `"a < b"` with empty center and right columns, while the same text
with italic markers fails to parse; the bold body excludes only `*`, whereas
the italic and plain character sets exclude both `<` and `>`. -/
theorem c10_bold_body_column_chars :
    parseChart "- **a < b**" =
      Except.ok (Chart.mk
        [Line.mk LineLevel.Text [TextSpan.mk "a < b" TextStyle.Bold] [] []]) ∧
    isOkB (parseChart "- *a < b*") = false ∧
    boldBodyExcluded.contains '<' = false ∧
    boldBodyExcluded.contains '>' = false ∧
    italicBodyExcluded.contains '<' = true ∧
    italicBodyExcluded.contains '>' = true ∧
    plainExcluded.contains '<' = true ∧
    plainExcluded.contains '>' = true := by
  decide

end ChordScript
